import Mathlib

/-!
Verification development for the DIY-Animatronic-Endoskeleton repository.

The two programs embedded here are src/Endocode/receivercode.py (the puppet:
ESP-NOW receive loop driving ten servo channels through a PCA9685) and
src/Endocode/controllercode.py (the controller: joystick polling loop that
broadcasts JSON control frames).  Wire frames are JSON dictionaries with
optional keys; they are modelled as a record of optional fields, where a
missing key is `none` (for value-carrying keys read with "k in controls")
and `false` (for flag keys read with controls.get("k"), whose absent/None
value is falsy).  Wall-clock times (time.ticks_ms) are modelled as Nat and
time.ticks_diff(now, t) as now - t, ignoring tick wraparound.
-/

/-- Wire control frame: a JSON dictionary with the keys used by the two
programs.  `seq` is included to be able to state claims about a sequence
counter; the controller never writes such a key, which is modelled by the
field being `none` in every frame the controller builds. -/
structure Frame where
  heartbeat : Bool := false
  emergency_stop : Bool := false
  unlock : Bool := false
  eye_h : Option Int := none
  eye_v : Option Int := none
  neck_lr : Option Int := none
  neck_ud : Option Int := none
  torso_rot : Option Int := none
  eye_blink : Bool := false
  wave_active : Option Bool := none
  jaw_open : Option Bool := none
  seq : Option Int := none
deriving DecidableEq, Repr

/-- Clamp to the servo range, receivercode.py line 43: max(0, min(180, angle)). -/
def clamp180 (a : Int) : Int := max 0 (min 180 a)

/-- set_pwm (receivercode.py lines 24-35): writes the (on, off) pair to the
channel registers; an invalid channel is rejected (returns without writing).
The written command is modelled as the triple (channel, on, off). -/
def set_pwm (channel onv offv : Int) : Option (Int × Int × Int) :=
  if channel < 0 ∨ channel > 15 then none
  else some (channel, onv, offv)

/-- Pulse width in microseconds, receivercode.py line 46:
us = 500 + (angle * 2000) // 180 (Python floor division). -/
def servo_us (angle : Int) : Int := 500 + (angle * 2000).fdiv 180

/-- Duty value, receivercode.py line 48: duty = int(us * 4096 // 20000). -/
def servo_duty (angle : Int) : Int := (servo_us angle * 4096).fdiv 20000

/-- The PWM command produced for a given angle with no input validation:
set_pwm(channel, 0, duty), receivercode.py line 49. -/
def servo_pwm (channel angle : Int) : Option (Int × Int × Int) :=
  set_pwm channel 0 (servo_duty angle)

/-- set_servo_angle (receivercode.py lines 39-49): out-of-range angles are
clamped to [0,180], then the angle is converted to a PWM command. -/
def set_servo_angle (channel angle : Int) : Option (Int × Int × Int) :=
  if angle < 0 ∨ angle > 180 then servo_pwm channel (clamp180 angle)
  else servo_pwm channel angle

/-- Puppet session state: the three loop variables of receivercode.py lines
174-178 plus the last commanded angle of each of the ten servo channels
(index = PCA9685 channel: 0 EYE_H, 1 EYE_V, 2 EYE_BLINK, 3 NECK_LR,
4 NECK_UD, 5 JAW, 6 TORSO, 7-9 WAVE1-3). -/
structure RxState where
  wave_active : Bool
  jaw_open : Bool
  emergency_stop : Bool
  last_heartbeat : Nat
  channels : List Int
deriving DecidableEq, Repr

/-- stop_all_servos (receivercode.py lines 114-123) leaves every one of the
ten channels commanded to neutral, 90 degrees. -/
def neutral_channels : List Int := List.replicate 10 90

/-- Boot state of the receiver (receivercode.py lines 174-181): all control
flags false, watchdog stamp taken at boot time t0, and all servos driven to
neutral by the boot-time stop_all_servos() call. -/
def rx_init (t0 : Nat) : RxState :=
  { wave_active := false, jaw_open := false, emergency_stop := false,
    last_heartbeat := t0, channels := neutral_channels }

/-- Effect of set_servo_angle on the mirrored channel state: the channel
records the clamped commanded angle. -/
def applyServo (c : List Int) (ch : Nat) (a : Int) : List Int :=
  c.set ch (clamp180 a)

/-- One iteration of the receive loop, as seen by the loop: either the recv
call yielded no data at time `now`, or a datagram arrived that failed JSON
decoding (`garbage`), or a decoded frame arrived. -/
inductive RxEvent where
  | silence (now : Nat)
  | garbage (now : Nat)
  | frame (now : Nat) (f : Frame)
deriving DecidableEq, Repr

def RxEvent.time : RxEvent → Nat
  | .silence t => t
  | .garbage t => t
  | .frame t _ => t

/-- True when the loop iteration received a datagram (decodable or not). -/
def RxEvent.isMsg : RxEvent → Bool
  | .silence _ => false
  | .garbage _ => true
  | .frame _ _ => true

/-- True for a frame that reaches the unlock handler (receivercode.py line
222): unlock set and not shadowed by the heartbeat or emergency branches. -/
def RxEvent.isUnlock : RxEvent → Bool
  | .frame _ f => !f.heartbeat && !f.emergency_stop && f.unlock
  | _ => false

/-- New channel state after the data-frame section of the loop body
(receivercode.py lines 231-256), applied in source order: the five position
fields, then the blink (perform_blink ends with the blink channel back at
90), then the wave (perform_wave_sequence ends with channels 7-9 at 90),
then the jaw (30 when open, 90 when closed). -/
def dataChannels (s : RxState) (f : Frame) : List Int :=
  let c := s.channels
  let c := match f.eye_h with | some a => applyServo c 0 a | none => c
  let c := match f.eye_v with | some a => applyServo c 1 a | none => c
  let c := match f.neck_lr with | some a => applyServo c 3 a | none => c
  let c := match f.neck_ud with | some a => applyServo c 4 a | none => c
  let c := match f.torso_rot with | some a => applyServo c 6 a | none => c
  let c := if f.eye_blink then applyServo c 2 90 else c
  let c := match f.wave_active with
    | some v => if v then applyServo (applyServo (applyServo c 7 90) 8 90) 9 90 else c
    | none => c
  match f.jaw_open with
  | some v => applyServo c 5 (if v then 30 else 90)
  | none => c

/-- State after the data-frame section: channels updated, and the
wave_active / jaw_open variables overwritten when their key is present
(receivercode.py lines 248-256). -/
def applyData (s : RxState) (f : Frame) : RxState :=
  { s with
    channels := dataChannels s f,
    wave_active := f.wave_active.getD s.wave_active,
    jaw_open := f.jaw_open.getD s.jaw_open }

/-- One iteration of the receiver main loop (receivercode.py lines 186-256):
on an empty recv, run the watchdog check (timeout 4000 ms against
last_heartbeat, stop all servos and set emergency_stop unless already set);
on an undecodable datagram, change nothing; on a decoded frame, dispatch in
source order heartbeat, emergency_stop, unlock, then (only when not in
emergency stop) the position/animation fields. -/
def rxStep (s : RxState) : RxEvent → RxState
  | .silence now =>
    if 4000 < now - s.last_heartbeat then
      if s.emergency_stop then s
      else { s with emergency_stop := true, channels := neutral_channels }
    else s
  | .garbage _ => s
  | .frame now f =>
    if f.heartbeat then { s with last_heartbeat := now }
    else if f.emergency_stop then
      { s with emergency_stop := true, channels := neutral_channels }
    else if f.unlock then { s with emergency_stop := false }
    else if s.emergency_stop then s
    else applyData s f

/-- The receive loop run over a sequence of loop-iteration events. -/
def rxRun (s : RxState) (evs : List RxEvent) : RxState :=
  evs.foldl rxStep s

/-- Hardware command trace of a loop iteration: a servo command (channel,
commanded clamped angle) or a blocking time.sleep of the given milliseconds. -/
inductive Act where
  | servo (channel : Nat) (angle : Int)
  | sleepMs (ms : Nat)
deriving DecidableEq, Repr

/-- stop_all_servos (receivercode.py lines 114-123): channels 0..9 to 90. -/
def stop_all_acts : List Act := (List.range 10).map (fun ch => Act.servo ch 90)

/-- perform_blink (receivercode.py lines 145-152): close the blink channel,
block the loop with time.sleep(0.15), reopen.  The sleep is executed inline
in the receive loop; there is no blink_active flag or non-blocking timer. -/
def perform_blink_acts : List Act :=
  [Act.servo 2 0, Act.sleepMs 150, Act.servo 2 90]

/-- One cycle of perform_wave_sequence (receivercode.py lines 128-136). -/
def wave_cycle_acts : List Act :=
  [Act.servo 7 60, Act.servo 8 120, Act.servo 9 90, Act.sleepMs 200,
   Act.servo 7 120, Act.servo 8 60, Act.servo 9 90, Act.sleepMs 200]

/-- perform_wave_sequence (receivercode.py lines 125-143): three blocking
cycles, then return the three wave channels to neutral. -/
def perform_wave_acts : List Act :=
  wave_cycle_acts ++ wave_cycle_acts ++ wave_cycle_acts ++
    [Act.servo 7 90, Act.servo 8 90, Act.servo 9 90]

/-- Hardware commands issued by the data-frame section of the loop body
(receivercode.py lines 231-256), in source order. -/
def dataActs (f : Frame) : List Act :=
  (match f.eye_h with | some a => [Act.servo 0 (clamp180 a)] | none => []) ++
  (match f.eye_v with | some a => [Act.servo 1 (clamp180 a)] | none => []) ++
  (match f.neck_lr with | some a => [Act.servo 3 (clamp180 a)] | none => []) ++
  (match f.neck_ud with | some a => [Act.servo 4 (clamp180 a)] | none => []) ++
  (match f.torso_rot with | some a => [Act.servo 6 (clamp180 a)] | none => []) ++
  (if f.eye_blink then perform_blink_acts else []) ++
  (match f.wave_active with
    | some v => if v then perform_wave_acts else []
    | none => []) ++
  (match f.jaw_open with
    | some v => [Act.servo 5 (if v then 30 else 90)]
    | none => [])

/-- Hardware commands and blocking sleeps of one receiver loop iteration
(receivercode.py lines 186-256), mirroring rxStep branch for branch. -/
def rxStepActs (s : RxState) : RxEvent → List Act
  | .silence now =>
    (if 4000 < now - s.last_heartbeat then
       if s.emergency_stop then [] else stop_all_acts
     else []) ++ [Act.sleepMs 10]
  | .garbage _ => []
  | .frame _ f =>
    if f.heartbeat then []
    else if f.emergency_stop then stop_all_acts
    else if f.unlock then []
    else if s.emergency_stop then []
    else dataActs f

/-- Total milliseconds slept while the blink channel (2) is commanded to its
closed extreme (0), along an action trace; the Bool tracks whether the
channel is currently closed. -/
def blink_closed_time (closed : Bool) : List Act → Nat
  | [] => 0
  | Act.servo 2 a :: rest => blink_closed_time (a == 0) rest
  | Act.servo _ _ :: rest => blink_closed_time closed rest
  | Act.sleepMs n :: rest =>
    (if closed then n else 0) + blink_closed_time closed rest

/-- Controller session state: the loop variables of controllercode.py lines
197-210 (wave_active / jaw_open come from the loaded state file). -/
structure TxState where
  wave_active : Bool
  jaw_open : Bool
  last_send : Nat
  heartbeat_timer : Nat
  unlock_combo : List Nat
  unlocked : Bool
  last_joy2_btn_state : Bool
  joy2_btn_press_time : Nat
  blink_active : Bool
  last_blink_state : Bool
deriving DecidableEq, Repr

/-- Defaults used by load_state when no state file exists or it is corrupt
(controllercode.py lines 113-124): wave_active and jaw_open both false. -/
def load_state_defaults : Bool × Bool := (false, false)

/-- Controller boot state (controllercode.py lines 196-210): the loaded
wave/jaw toggles, empty unlock press history, and unlocked = True. -/
def ctrl_init (w j : Bool) : TxState :=
  { wave_active := w, jaw_open := j, last_send := 0, heartbeat_timer := 0,
    unlock_combo := [], unlocked := true, last_joy2_btn_state := false,
    joy2_btn_press_time := 0, blink_active := false, last_blink_state := false }

/-- The state dictionary written by save_state (controllercode.py 126-139). -/
structure SavedState where
  wave_active : Bool
  jaw_open : Bool
deriving DecidableEq, Repr

def save_state (w j : Bool) : SavedState := { wave_active := w, jaw_open := j }

/-- check_unlock_combo (controllercode.py lines 160-171): when the button
reads pressed this iteration, append now to the press history, evict entries
2 seconds old or older, and fire (clearing the history) when at least 3
entries remain.  The check is on the button LEVEL (is_pressed), not on a
press edge. -/
def check_unlock_combo (pressed : Bool) (combo : List Nat) (now : Nat) :
    List Nat × Bool :=
  if pressed then
    if 3 ≤ ((combo ++ [now]).filter (fun tm => now - tm < 2000)).length
    then ([], true)
    else ((combo ++ [now]).filter (fun tm => now - tm < 2000), false)
  else (combo, false)

/-- The locked branch of the controller loop (controllercode.py lines
236-240) run over successive (now, button-level) samples: iterate
check_unlock_combo until it fires; on firing the unlock frame is sent and
the loop leaves the locked branch. -/
def run_unlock_combo (combo : List Nat) : List (Nat × Bool) → List Nat × Bool
  | [] => (combo, false)
  | (now, pressed) :: rest =>
    let r := check_unlock_combo pressed combo now
    if r.2 then (r.1, true) else run_unlock_combo r.1 rest

/-- Number of press edges (pressed sample directly preceded by an unpressed
sample) in a sample trace, `last` being the level before the trace. -/
def press_edges (last : Bool) : List (Nat × Bool) → Nat
  | [] => 0
  | (_, p) :: rest => (if p && !last then 1 else 0) + press_edges p rest

/-- The joy2 short-press toggle handler (controllercode.py lines 264-278),
given the current and previous button levels: a press edge records the press
time; a release edge with a press duration in [50, 1000] ms flips
wave_active, copies it into jaw_open, and persists both via save_state.
Returns (joy2_btn_press_time, wave_active, jaw_open, frame written to the
state file if any). -/
def joy2_step (now : Nat) (cur last : Bool) (pressT : Nat) (wave jaw : Bool) :
    Nat × Bool × Bool × Option SavedState :=
  if cur && !last then (now, wave, jaw, none)
  else if !cur && last then
    if 50 ≤ now - pressT ∧ now - pressT ≤ 1000 then
      (pressT, !wave, !wave, some (save_state (!wave) (!wave)))
    else (pressT, wave, jaw, none)
  else (pressT, wave, jaw, none)

/-- The controls dictionary built each unlocked iteration (controllercode.py
lines 281-290): exactly the eight listed keys, nothing else — in particular
no "seq" key. -/
def buildControls (eh ev nlr nud tr : Int) (blink wave jaw : Bool) : Frame :=
  { heartbeat := false, emergency_stop := false, unlock := false,
    eye_h := some eh, eye_v := some ev, neck_lr := some nlr,
    neck_ud := some nud, torso_rot := some tr, eye_blink := blink,
    wave_active := some wave, jaw_open := some jaw, seq := none }

/-- The heartbeat message {"heartbeat": True} (controllercode.py 244, 302). -/
def heartbeat_msg : Frame := { heartbeat := true }

/-- The unlock message {"unlock": True} (controllercode.py line 238). -/
def unlock_msg : Frame := { unlock := true }

/-- The emergency message {"emergency_stop": True} (controllercode.py 230). -/
def emergency_msg : Frame := { emergency_stop := true }

theorem clamp180_nonneg (a : Int) : 0 ≤ clamp180 a := le_max_left 0 _

theorem clamp180_le (a : Int) : clamp180 a ≤ 180 :=
  max_le (by norm_num) (min_le_left _ _)

theorem clamp180_of_mem (a : Int) (h1 : 0 ≤ a) (h2 : a ≤ 180) :
    clamp180 a = a := by
  unfold clamp180
  rw [min_eq_right h2, max_eq_right h1]

/-- C8: set_servo_angle applied to any integer angle produces the same PWM
command as first clamping the angle to [0,180] and then applying it, and on
an in-range value (every value of the form clamp180 a is in range, and every
in-range value is of that form) it forwards the angle unchanged to the PWM
conversion. -/
theorem set_servo_angle_clamp_idem (channel a : Int) :
    set_servo_angle channel a = set_servo_angle channel (clamp180 a) ∧
    set_servo_angle channel (clamp180 a) = servo_pwm channel (clamp180 a) := by
  have h0 := clamp180_nonneg a
  have h180 := clamp180_le a
  have hsecond : set_servo_angle channel (clamp180 a)
      = servo_pwm channel (clamp180 a) := by
    unfold set_servo_angle
    rw [if_neg]
    intro hcase
    rcases hcase with h | h <;> omega
  refine ⟨?_, hsecond⟩
  by_cases hcase : a < 0 ∨ a > 180
  · rw [hsecond]
    unfold set_servo_angle
    rw [if_pos hcase]
  · push_neg at hcase
    rw [clamp180_of_mem a hcase.1 (by omega)]

/-- C2 counterexample: the controller boots with unlocked = True
(controllercode.py line 206) and the puppet boots with emergency_stop =
False (receivercode.py line 177), and a freshly booted puppet honors a
position command (eye_h := 150 moves channel 0 to 150) without any unlock
ever having been received — refuting the claim that both session states
start locked. -/
theorem boot_locked_counterexample :
    (ctrl_init false false).unlocked = true ∧
    (rx_init 0).emergency_stop = false ∧
    (rxStep (rx_init 0) (RxEvent.frame 10 { eye_h := some 150 })).channels
      = neutral_channels.set 0 150 := by decide

/-- C2 amended: both nodes boot UNLOCKED — the controller's unlocked flag is
true at boot and the puppet's emergency_stop flag is false at boot (the boot
stop_all_servos leaves the channels at neutral, but position commands are
honored immediately, before any unlock frame). -/
theorem boot_state_unlocked (w j : Bool) (t0 : Nat) :
    (ctrl_init w j).unlocked = true ∧
    (rx_init t0).emergency_stop = false ∧
    (rx_init t0).channels = neutral_channels ∧
    (rxStep (rx_init t0) (RxEvent.frame t0 { eye_h := some 150 })).channels
      = neutral_channels.set 0 150 := by
  refine ⟨rfl, rfl, rfl, ?_⟩
  rfl

/-- C3 counterexample: an accepted, successfully decoded unlock datagram at
time 500, and an accepted but undecodable datagram at time 500, both leave
the watchdog stamp at its boot value 0 — refuting the claim that the
watchdog timer is refreshed on every accepted inbound datagram. -/
theorem watchdog_refresh_counterexample :
    (RxEvent.frame 500 unlock_msg).isMsg = true ∧
    (rxStep (rx_init 0) (RxEvent.frame 500 unlock_msg)).last_heartbeat = 0 ∧
    (RxEvent.garbage 500).isMsg = true ∧
    (rxStep (rx_init 0) (RxEvent.garbage 500)).last_heartbeat = 0 ∧
    (0 : Nat) ≠ 500 := by decide

/-- C3 amended: the puppet's watchdog stamp is refreshed exactly by frames
whose heartbeat field is truthy; every other loop event — emergency_stop,
unlock or data frames, undecodable datagrams, and empty receives — leaves it
unchanged. -/
theorem heartbeat_refresh_only (s : RxState) (now : Nat) (f : Frame) :
    (rxStep s (RxEvent.frame now f)).last_heartbeat =
      (if f.heartbeat then now else s.last_heartbeat) ∧
    (rxStep s (RxEvent.garbage now)).last_heartbeat = s.last_heartbeat ∧
    (rxStep s (RxEvent.silence now)).last_heartbeat = s.last_heartbeat := by
  refine ⟨?_, rfl, ?_⟩
  · simp only [rxStep]
    cases hf : f.heartbeat
    · split_ifs <;> simp [applyData]
    · simp [hf]
  · simp only [rxStep]
    split_ifs <;> rfl

/-- C7 counterexample: the data frame the controller builds and the
heartbeat message it sends carry no seq key at all — refuting the claim
that every outbound data/heartbeat frame carries the next value of a 16-bit
counter. -/
theorem seq_field_counterexample :
    (buildControls 90 90 90 90 90 false false false).seq = none ∧
    heartbeat_msg.seq = none := by decide

/-- C7 amended: no outbound frame of the controller — data, heartbeat,
unlock or emergency — carries a seq field, and the controller keeps no
sequence counter of any kind. -/
theorem frames_carry_no_seq (eh ev nlr nud tr : Int) (blink wave jaw : Bool) :
    (buildControls eh ev nlr nud tr blink wave jaw).seq = none ∧
    heartbeat_msg.seq = none ∧ unlock_msg.seq = none ∧ emergency_msg.seq = none :=
  ⟨rfl, rfl, rfl, rfl⟩

/-- C9: a release of the secondary button between 50 and 1000 ms after its
press flips wave_active, copies the flipped value into jaw_open (so the two
are equal after every accepted short press, from any starting state), and
persists exactly that coupled pair via save_state. -/
theorem short_press_couples_wave_jaw (now pressT : Nat) (wave jaw : Bool)
    (h1 : 50 ≤ now - pressT) (h2 : now - pressT ≤ 1000) :
    joy2_step now false true pressT wave jaw =
      (pressT, !wave, !wave, some (save_state (!wave) (!wave))) := by
  unfold joy2_step
  simp [h1, h2]

theorem short_press_couples_wave_jaw_witness :
    joy2_step 300 false true 100 true false =
      (100, false, false, some (save_state false false)) :=
  short_press_couples_wave_jaw 300 100 true false (by decide) (by decide)

/-- C10: a frame whose heartbeat field is truthy changes nothing but the
watchdog stamp — the resulting state is exactly the old state with
last_heartbeat set to now, even when the frame also carries emergency_stop,
unlock or position fields, which are skipped by the continue. -/
theorem heartbeat_frame_only_refreshes (s : RxState) (now : Nat) (f : Frame)
    (h : f.heartbeat = true) :
    rxStep s (RxEvent.frame now f) = { s with last_heartbeat := now } := by
  unfold rxStep
  simp [h]

/-- A frame carrying every field at once, used to exercise the heartbeat
priority. -/
def kitchen_sink_frame : Frame :=
  { heartbeat := true, emergency_stop := true, unlock := true,
    eye_h := some 0, eye_v := some 0, neck_lr := some 0, neck_ud := some 0,
    torso_rot := some 0, eye_blink := true, wave_active := some true,
    jaw_open := some true, seq := none }

theorem heartbeat_frame_only_refreshes_witness :
    rxStep (rx_init 3) (RxEvent.frame 9 kitchen_sink_frame) =
      { rx_init 3 with last_heartbeat := 9 } :=
  heartbeat_frame_only_refreshes (rx_init 3) 9 kitchen_sink_frame rfl

/-- A frame carrying only an eye_blink trigger. -/
def blink_only_frame : Frame := { eye_blink := true }

/-- C6: the code's blink is BLOCKING and re-triggerable, contradicting the
claim.  Processing an eye_blink frame on an unlocked puppet executes
perform_blink inline: the iteration's hardware trace contains a blocking
150 ms time.sleep, and a second blink frame (which the loop can only see
after the first blink finished, precisely because the sleep blocks the
loop) runs a second full blink, so the total closed time over the two
triggers is 300 ms, not 150 ms — there is no blink_active guard. -/
theorem blink_blocking_restarts :
    Act.sleepMs 150 ∈ rxStepActs (rx_init 0) (RxEvent.frame 100 blink_only_frame) ∧
    blink_closed_time false
      (rxStepActs (rx_init 0) (RxEvent.frame 100 blink_only_frame) ++
       rxStepActs (rxStep (rx_init 0) (RxEvent.frame 100 blink_only_frame))
         (RxEvent.frame 200 blink_only_frame)) = 300 ∧
    (300 : Nat) ≠ 150 := by decide

/-- C4: while the puppet is locked (emergency_stop = true), a received frame
is dispatched with priority heartbeat, then emergency_stop, then unlock; a
frame carrying none of those three — whatever position or animation fields
(eye_h, eye_v, neck_lr, neck_ud, torso_rot, eye_blink, wave_active,
jaw_open) it carries — leaves the state, in particular every channel's
commanded angle, completely unchanged. -/
theorem locked_frame_precedence (s : RxState) (now : Nat) (f : Frame)
    (h : s.emergency_stop = true) :
    rxStep s (RxEvent.frame now f) =
      (if f.heartbeat then { s with last_heartbeat := now }
       else if f.emergency_stop then { s with channels := neutral_channels }
       else if f.unlock then { s with emergency_stop := false }
       else s) := by
  cases s with
  | mk w j es lhb ch =>
    simp only [RxState.emergency_stop] at h
    subst h
    simp only [rxStep]
    split_ifs <;> rfl

/-- A locked puppet state with some non-neutral channel memory. -/
def locked_state : RxState :=
  { wave_active := false, jaw_open := false, emergency_stop := true,
    last_heartbeat := 0, channels := neutral_channels }

theorem locked_frame_precedence_witness :
    rxStep locked_state
        (RxEvent.frame 5 (buildControls 10 20 30 40 50 true true true)) =
      locked_state := by
  have h := locked_frame_precedence locked_state 5
    (buildControls 10 20 30 40 50 true true true) rfl
  simpa using h

theorem rxRun_nil (s : RxState) : rxRun s [] = s := rfl

theorem rxRun_cons (s : RxState) (e : RxEvent) (evs : List RxEvent) :
    rxRun s (e :: evs) = rxRun (rxStep s e) evs := rfl

theorem rxRun_append (s : RxState) (l1 l2 : List RxEvent) :
    rxRun s (l1 ++ l2) = rxRun (rxRun s l1) l2 :=
  List.foldl_append _ _ _ _

/-- The watchdog stamp after one loop iteration is either the old stamp or
the time of the event just processed. -/
theorem rxStep_lhb_cases (s : RxState) (e : RxEvent) :
    (rxStep s e).last_heartbeat = s.last_heartbeat ∨
    (rxStep s e).last_heartbeat = e.time := by
  cases e with
  | silence now =>
    simp only [rxStep]
    split_ifs <;> simp [RxEvent.time]
  | garbage now => left; rfl
  | frame now f =>
    simp only [rxStep]
    split_ifs <;> simp [applyData, RxEvent.time]

/-- Along a run whose events all happen no later than T, a watchdog stamp
that starts at or before T stays at or before T. -/
theorem rxRun_lhb_le (evs : List RxEvent) (s : RxState) (T : Nat)
    (hs : s.last_heartbeat ≤ T) (h : ∀ e ∈ evs, e.time ≤ T) :
    (rxRun s evs).last_heartbeat ≤ T := by
  induction evs generalizing s with
  | nil => exact hs
  | cons e rest ih =>
    rw [rxRun_cons]
    apply ih
    · rcases rxStep_lhb_cases s e with h1 | h1
      · rw [h1]; exact hs
      · rw [h1]; exact h e (List.mem_cons_self e rest)
    · intro x hx; exact h x (List.mem_cons_of_mem _ hx)

/-- Loop iterations that received no datagram never touch the watchdog
stamp. -/
theorem rxRun_silences_lhb (evs : List RxEvent) (s : RxState)
    (h : ∀ e ∈ evs, e.isMsg = false) :
    (rxRun s evs).last_heartbeat = s.last_heartbeat := by
  induction evs generalizing s with
  | nil => rfl
  | cons e rest ih =>
    have he := h e (List.mem_cons_self e rest)
    cases e with
    | silence now =>
      rw [rxRun_cons, ih _ (fun x hx => h x (List.mem_cons_of_mem _ hx))]
      simp only [rxStep]
      split_ifs <;> rfl
    | garbage now => simp [RxEvent.isMsg] at he
    | frame now f => simp [RxEvent.isMsg] at he

/-- Reachability invariant: whenever the puppet is in emergency stop, all
ten channels were last commanded to neutral. -/
def lockedNeutral (s : RxState) : Prop :=
  s.emergency_stop = true → s.channels = neutral_channels

theorem rxStep_lockedNeutral (s : RxState) (e : RxEvent)
    (h : lockedNeutral s) : lockedNeutral (rxStep s e) := by
  cases s with
  | mk w j es lhb ch =>
    cases e with
    | silence now =>
      simp only [rxStep]
      split_ifs
      · exact h
      · intro _; rfl
      · exact h
    | garbage now => exact h
    | frame now f =>
      simp only [rxStep]
      split_ifs with h1 h2 h3 h4
      · exact fun hes => h hes
      · intro _; rfl
      · intro hes; simp at hes
      · exact fun hes => h hes
      · intro hes; exact absurd hes h4

theorem rxRun_lockedNeutral (evs : List RxEvent) (s : RxState)
    (h : lockedNeutral s) : lockedNeutral (rxRun s evs) := by
  induction evs generalizing s with
  | nil => exact h
  | cons e rest ih =>
    rw [rxRun_cons]
    exact ih _ (rxStep_lockedNeutral s e h)

/-- An empty receive more than 4000 ms after the watchdog stamp leaves the
loop locked with every channel at neutral. -/
theorem rxStep_silence_locks (s : RxState) (t : Nat)
    (hgap : s.last_heartbeat + 4000 < t) (h : lockedNeutral s) :
    (rxStep s (RxEvent.silence t)).emergency_stop = true ∧
    (rxStep s (RxEvent.silence t)).channels = neutral_channels := by
  have hc : 4000 < t - s.last_heartbeat := by omega
  simp only [rxStep, if_pos hc]
  by_cases hes : s.emergency_stop = true
  · rw [if_pos hes]
    exact ⟨hes, h hes⟩
  · rw [if_neg hes]
    exact ⟨rfl, rfl⟩

/-- Once locked with neutral channels, the puppet stays locked with neutral
channels across any events that contain no effective unlock frame. -/
theorem rxRun_locked_persists (evs : List RxEvent) (s : RxState)
    (hno : ∀ e ∈ evs, e.isUnlock = false)
    (hes : s.emergency_stop = true) (hch : s.channels = neutral_channels) :
    (rxRun s evs).emergency_stop = true ∧
    (rxRun s evs).channels = neutral_channels := by
  induction evs generalizing s with
  | nil => exact ⟨hes, hch⟩
  | cons e rest ih =>
    rw [rxRun_cons]
    have he := hno e (List.mem_cons_self e rest)
    have hstep : (rxStep s e).emergency_stop = true ∧
        (rxStep s e).channels = neutral_channels := by
      cases s with
      | mk w j es lhb ch =>
        simp only [RxState.emergency_stop] at hes
        simp only [RxState.channels] at hch
        subst hes
        cases e with
        | silence now =>
          simp only [rxStep]
          split_ifs <;> exact ⟨rfl, hch⟩
        | garbage now => exact ⟨rfl, hch⟩
        | frame now f =>
          simp only [RxEvent.isUnlock] at he
          simp only [rxStep]
          split_ifs with h1 h2 h3
          · exact ⟨rfl, hch⟩
          · exact ⟨rfl, rfl⟩
          · exfalso
            simp only [Bool.not_eq_true] at h1 h2
            rw [h1, h2, h3] at he
            simp at he
          · exact ⟨rfl, hch⟩
    exact ih _ (fun x hx => hno x (List.mem_cons_of_mem _ hx)) hstep.1 hstep.2

/-- C1: if a datagram is accepted at time e1.time, the next datagram arrives
only after a gap of more than 4000 ms, and during the silent gap the receive
call yields no data at some time t past the 4000 ms deadline (the watchdog
check runs exactly on such empty-receive iterations, so silence cannot
starve it), then from that iteration on the puppet is in the Locked
(emergency_stop) state with all ten channels commanded to neutral (90), and
it stays locked with neutral channels across any further events — position
commands included — until an unlock frame arrives. -/
theorem watchdog_gap_locks (t0 : Nat) (evs1 : List RxEvent) (e1 : RxEvent)
    (mids : List RxEvent) (t : Nat) (evs2 : List RxEvent)
    (_hmsg : e1.isMsg = true)
    (h0 : t0 ≤ e1.time)
    (hpre : ∀ e ∈ evs1, e.time ≤ e1.time)
    (hmids : ∀ e ∈ mids, e.isMsg = false)
    (hgap : e1.time + 4000 < t)
    (hnoul : ∀ e ∈ evs2, e.isUnlock = false) :
    ((rxRun (rx_init t0) (((evs1 ++ [e1]) ++ mids) ++ [RxEvent.silence t])).emergency_stop = true ∧
     (rxRun (rx_init t0) (((evs1 ++ [e1]) ++ mids) ++ [RxEvent.silence t])).channels = neutral_channels) ∧
    ((rxRun (rx_init t0) ((((evs1 ++ [e1]) ++ mids) ++ [RxEvent.silence t]) ++ evs2)).emergency_stop = true ∧
     (rxRun (rx_init t0) ((((evs1 ++ [e1]) ++ mids) ++ [RxEvent.silence t]) ++ evs2)).channels = neutral_channels) := by
  have hA : (rxRun (rx_init t0) (evs1 ++ [e1])).last_heartbeat ≤ e1.time := by
    apply rxRun_lhb_le
    · exact h0
    · intro e he
      rcases List.mem_append.mp he with h | h
      · exact hpre e h
      · rw [List.mem_singleton.mp h]
  have hB : (rxRun (rxRun (rx_init t0) (evs1 ++ [e1])) mids).last_heartbeat
      ≤ e1.time := by
    rw [rxRun_silences_lhb mids _ hmids]
    exact hA
  have hinvB : lockedNeutral (rxRun (rxRun (rx_init t0) (evs1 ++ [e1])) mids) := by
    apply rxRun_lockedNeutral
    apply rxRun_lockedNeutral
    intro hes
    simp [rx_init] at hes
  have hfire := rxStep_silence_locks _ t (by omega) hinvB
  have hsplit : rxRun (rx_init t0) (((evs1 ++ [e1]) ++ mids) ++ [RxEvent.silence t])
      = rxStep (rxRun (rxRun (rx_init t0) (evs1 ++ [e1])) mids) (RxEvent.silence t) := by
    rw [rxRun_append, rxRun_append]
    rfl
  constructor
  · rw [hsplit]
    exact hfire
  · rw [rxRun_append, hsplit]
    exact rxRun_locked_persists evs2 _ hnoul hfire.1 hfire.2

/-- The heartbeat datagram accepted at time 100 in the witness scenario. -/
def hb_at_100 : RxEvent := RxEvent.frame 100 heartbeat_msg

/-- A position-command datagram sent after the link had gone silent. -/
def pos_at_4300 : RxEvent :=
  RxEvent.frame 4300 (buildControls 150 150 150 150 150 false false false)

theorem watchdog_gap_locks_witness :
    (rxRun (rx_init 0) [hb_at_100, RxEvent.silence 4200]).emergency_stop = true ∧
    (rxRun (rx_init 0) [hb_at_100, RxEvent.silence 4200]).channels = neutral_channels ∧
    (rxRun (rx_init 0) [hb_at_100, RxEvent.silence 4200, pos_at_4300]).emergency_stop = true ∧
    (rxRun (rx_init 0) [hb_at_100, RxEvent.silence 4200, pos_at_4300]).channels = neutral_channels := by
  have h := watchdog_gap_locks 0 [] hb_at_100 [] 4200 [pos_at_4300]
    (by decide) (by decide) (by simp) (by simp) (by decide) (by decide)
  exact ⟨by simpa using h.1.1, by simpa using h.1.2,
         by simpa using h.2.1, by simpa using h.2.2⟩

theorem run_unlock_combo_cons_false (combo : List Nat) (tm : Nat)
    (rest : List (Nat × Bool)) :
    run_unlock_combo combo ((tm, false) :: rest) = run_unlock_combo combo rest := by
  simp [run_unlock_combo, check_unlock_combo]

theorem run_unlock_combo_unpressed (pre rest : List (Nat × Bool))
    (combo : List Nat) (h : ∀ e ∈ pre, e.2 = false) :
    run_unlock_combo combo (pre ++ rest) = run_unlock_combo combo rest := by
  induction pre with
  | nil => rfl
  | cons e p ih =>
    obtain ⟨tm, pressed⟩ := e
    have he : pressed = false := h (tm, pressed) (List.mem_cons_self _ _)
    subst he
    rw [List.cons_append, run_unlock_combo_cons_false]
    exact ih (fun x hx => h x (List.mem_cons_of_mem _ hx))

/-- Three pressed samples all within a strict 2000 ms window fire the unlock
and clear the press history. -/
theorem run_unlock_combo_three (a b c : Nat) (hab : a ≤ b) (hbc : b ≤ c)
    (hwin : c - a < 2000) :
    run_unlock_combo [] [(a, true), (b, true), (c, true)] = ([], true) := by
  have haa : a - a < 2000 := by omega
  have hba : b - a < 2000 := by omega
  have hbb : b - b < 2000 := by omega
  have hca : c - a < 2000 := hwin
  have hcb : c - b < 2000 := by omega
  have hcc : c - c < 2000 := by omega
  simp [run_unlock_combo, check_unlock_combo, List.filter,
        haa, hba, hbb, hca, hcb, hcc]

/-- The trace of a button simply held down across three consecutive polling
iterations of the locked branch (one press edge, 100 ms loop period). -/
def held_button_trace : List (Nat × Bool) := [(0, true), (100, true), (200, true)]

/-- C5 counterexample: check_unlock_combo samples the button LEVEL, not
press edges — a button held down across three ~100 ms loop iterations
contains exactly one press edge, yet the unlock fires, refuting the claim
that exactly 3 accepted press-edges are required. -/
theorem unlock_edges_counterexample :
    (run_unlock_combo [] held_button_trace).2 = true ∧
    press_edges false held_button_trace = 1 := by decide

/-- C5 amended: while locked, the unlock fires exactly when 3 pressed button
SAMPLES (one per loop iteration that reads the button pressed — a held
button contributes one per iteration, with no edge detection or debounce)
fall within a strict 2000 ms sliding window; samples 2000 ms old or older
are evicted before each check, and the press history is cleared when the
unlock fires.  2 presses within 2 s, or 3 presses spanning 2.5 s, still do
not unlock. -/
theorem unlock_combo_amended (pre : List (Nat × Bool)) (a b c : Nat)
    (hpre : ∀ e ∈ pre, e.2 = false) (hab : a ≤ b) (hbc : b ≤ c)
    (hwin : c - a < 2000) :
    run_unlock_combo [] (pre ++ [(a, true), (b, true), (c, true)]) = ([], true) ∧
    (∀ (combo : List Nat) (now : Nat),
      ((check_unlock_combo true combo now).2 = true ↔
        3 ≤ ((combo ++ [now]).filter (fun tm => now - tm < 2000)).length) ∧
      ((check_unlock_combo true combo now).2 = true →
        (check_unlock_combo true combo now).1 = []) ∧
      check_unlock_combo false combo now = (combo, false)) ∧
    (run_unlock_combo [] [(0, true), (500, true)]).2 = false ∧
    (run_unlock_combo [] [(0, true), (1250, true), (2500, true)]).2 = false := by
  refine ⟨?_, ?_, by decide, by decide⟩
  · rw [run_unlock_combo_unpressed pre _ [] hpre]
    exact run_unlock_combo_three a b c hab hbc hwin
  · intro combo now
    by_cases h : 3 ≤ ((combo ++ [now]).filter (fun tm => now - tm < 2000)).length
    · have hck : check_unlock_combo true combo now = ([], true) := by
        unfold check_unlock_combo
        rw [if_pos rfl, if_pos h]
      rw [hck]
      exact ⟨⟨fun _ => h, fun _ => rfl⟩, fun _ => rfl, rfl⟩
    · have hck : check_unlock_combo true combo now =
          ((combo ++ [now]).filter (fun tm => now - tm < 2000), false) := by
        unfold check_unlock_combo
        rw [if_pos rfl, if_neg h]
      rw [hck]
      refine ⟨?_, ?_, rfl⟩
      · constructor
        · intro hcontra; simp at hcontra
        · intro hcontra; exact absurd hcontra h
      · intro hcontra; simp at hcontra

theorem unlock_combo_amended_witness :
    run_unlock_combo [] ([(10, false)] ++ [(100, true), (700, true), (1400, true)]) = ([], true) ∧
    (∀ (combo : List Nat) (now : Nat),
      ((check_unlock_combo true combo now).2 = true ↔
        3 ≤ ((combo ++ [now]).filter (fun tm => now - tm < 2000)).length) ∧
      ((check_unlock_combo true combo now).2 = true →
        (check_unlock_combo true combo now).1 = []) ∧
      check_unlock_combo false combo now = (combo, false)) ∧
    (run_unlock_combo [] [(0, true), (500, true)]).2 = false ∧
    (run_unlock_combo [] [(0, true), (1250, true), (2500, true)]).2 = false :=
  unlock_combo_amended [(10, false)] 100 700 1400
    (by decide) (by decide) (by decide) (by decide)
